import Mathlib

/-!
Verification of the launcher supervisor logic of AstroTuxLauncher
(`AstroTuxLauncher.py`): the version-gated update check, the network
diagnostics, the WINE bootstrap, the server start sequence, console input
handling and the exit state machine.

The embedding is trace-based: each embedded method returns the list of
observable `Action`s it performs (log calls, child-process operations,
status pushes, sleeps, process termination) together with, where relevant,
its return value or the process exit code.  External collaborators — the
network probes of `utils.net`, the build-version reader of `utils.misc`,
the console parser of `utils.interface`, the subprocess layer and the
dedicated-server object of `astro.dedicatedserver` — are modelled by their
observable outcomes, which the embedded functions consume exactly the way
the Python code consumes the corresponding call results.
-/

namespace AstroTux

/-- Log levels of the Python `logging` calls used by the launcher. -/
inductive LogLevel
  | debug
  | info
  | warning
  | error
deriving DecidableEq

/-- Observable effects performed by the launcher methods.

* `log`           — a `LOGGER.<level>(msg)` call;
* `sleep ms`      — `time.sleep` (milliseconds);
* `killServer`    — `self.dedicatedserver.kill()`;
* `shutdownServer`— `self.dedicatedserver.shutdown()`;
* `pushStatus`    — `self.status_thread.update_status(status=..., message=...)`;
* `sysExit c`     — `sys.exit(c)`;
* `updateServerApp` — `self.update_server()` (install/update via steam);
* `startInputThread` — `self.input_thread.start()`;
* `launchServer`  — the call `self.dedicatedserver.start()`;
* `startStatusThread` — `self.status_thread.start()`;
* `serverLoop`    — `self.dedicatedserver.server_loop()`. -/
inductive Action
  | log (lvl : LogLevel) (msg : String)
  | sleep (ms : Nat)
  | killServer
  | shutdownServer
  | pushStatus (healthy : Bool) (msg : String)
  | sysExit (code : Nat)
  | updateServerApp
  | startInputThread
  | launchServer
  | startStatusThread
  | serverLoop
deriving DecidableEq

/-- Does the action launch the dedicated-server child process? -/
def isLaunch : Action → Bool
  | .launchServer => true
  | _ => false

/-- Does the action kill the child process? -/
def isKill : Action → Bool
  | .killServer => true
  | _ => false

/-- Does the action request a clean shutdown of the child process? -/
def isShutdown : Action → Bool
  | .shutdownServer => true
  | _ => false

/-- Does the action terminate the whole application? -/
def isSysExit : Action → Bool
  | .sysExit _ => true
  | _ => false

/-- Is the action any status push at all? -/
def isPush : Action → Bool
  | .pushStatus _ _ => true
  | _ => false

/-- Is the action the final unhealthy "Server was forcibly closed" push? -/
def isForcedClosePush : Action → Bool
  | .pushStatus healthy m => !healthy && (m == "Server was forcibly closed")
  | _ => false

/-- Strict dotted-version ordering, as used by `packaging.version` on plain
release versions such as "1.3.0": componentwise numeric comparison with
implicit zero padding of the shorter version. -/
def versionLt : List Nat → List Nat → Bool
  | _, [] => false
  | [], y :: ys => decide (0 < y) || versionLt [] ys
  | x :: xs, y :: ys => decide (x < y) || (decide (x = y) && versionLt xs ys)

/-- Renders a version back to its dotted string form ("1.3.0"). -/
def versionString (v : List Nat) : String :=
  String.intercalate "." (v.map toString)

/-- Inputs consumed by `check_server_update`:

* `oldversion` — the result of `read_build_version(AstroServerPath)`
  (`none` when no installed build version can be read);
* `ds_executable` — the result of `self.check_ds_executable()`;
* `remote` — the outcome of fetching and parsing the latest remote version
  from the stats endpoint; `Except.error e` models any exception raised
  inside the `try` block (fetch, JSON access or version parse failure),
  carrying the exception message used in the error log. -/
structure UpdateCheckInput where
  oldversion : Option (List Nat)
  ds_executable : Bool
  remote : Except String (List Nat)

/-- Result of the first half of `check_server_update`: the log trace, the
`do_update` decision flag and the `installed` flag. -/
structure UpdateDecision where
  logs : List Action
  do_update : Bool
  installed : Bool

/-- First half of `check_server_update` (update-needed decision):
`do_update` starts false and `installed` true; when no build version can be
read or the executable is missing, warn and require an install
(`installed := false`); otherwise compare against the remote version, with
any exception failing open to `do_update := true`. -/
def updateDecision (i : UpdateCheckInput) : UpdateDecision :=
  match i.oldversion with
  | none =>
      { logs := [.log .warning "Astroneer Dedicated Server is not installed yet"]
        do_update := true
        installed := false }
  | some old =>
      if !i.ds_executable then
        { logs := [.log .warning "Astroneer Dedicated Server is not installed yet"]
          do_update := true
          installed := false }
      else
        match i.remote with
        | .error e =>
            { logs := [.log .error ("Error occured while checking for newest version: " ++ e),
                       .log .warning "Trying server update blindly..."]
              do_update := true
              installed := true }
        | .ok newv =>
            if versionLt old newv then
              { logs := [.log .warning ("Astroneer Dedicated Server update available ("
                          ++ versionString old ++ " -> " ++ versionString newv ++ ")")]
                do_update := true
                installed := true }
            else
              { logs := []
                do_update := false
                installed := true }

/-- The update-needed decision of `check_server_update`. -/
def check_server_update_needed (i : UpdateCheckInput) : Bool :=
  (updateDecision i).do_update

/-- `check_server_update(force_update)`: decides whether an update is
needed and performs it when `AutoUpdateServer` is configured or
`force_update` was passed; otherwise only logs. -/
def check_server_update (i : UpdateCheckInput)
    (autoUpdateServer force_update : Bool) : List Action :=
  let d := updateDecision i
  d.logs ++
    (if d.do_update then
      (if autoUpdateServer then
        [.log .info (if d.installed then
            "Automatically updating Astroneer Dedicated Server..."
          else
            "Automatically installing Astroneer Dedicated Server...")]
      else []) ++
      (if autoUpdateServer || force_update then
        [Action.updateServerApp]
      else
        [.log .info "Not installing/updating automatically"])
    else
      if force_update then
        [.log .info "Noting to do"]
      else
        [.log .info "No update available, the Astroneer Dedicated Server is on the newest version"])

/-- Server status enum imported by the launcher from
`astro.dedicatedserver` (variants per the specification: STOPPED,
STARTING, RUNNING, CRASHED implied).  The launcher code only tests
membership in `[RUNNING, STARTING]`. -/
inductive ServerStatus
  | STOPPED
  | STARTING
  | RUNNING
  | CRASHED
deriving DecidableEq

/-- The observable state of the dedicated-server object that `exit`
inspects: its `status` and whether an RCON session is currently connected
(`self.dedicatedserver.rcon.connected`). -/
structure DedicatedServer where
  status : ServerStatus
  rcon_connected : Bool
deriving DecidableEq

/-- Trace suffix of the graceful exit path that terminates the process. -/
def exitZeroTail : List Action :=
  [.log .info "Goodbye!",
   .log .debug "Quitting with exit code 0...",
   Action.sysExit 0]

/-- The launcher method `exit(graceful, reason)`.  `ds` models
`self.dedicatedserver` (`none` before it is created in `__init__`),
`statusThread` models whether `self.status_thread` is set (it is `None`
until late in `__init__`).  The result is the action trace paired with the
process exit code: `none` means the method returns to its caller, `some c`
means the application terminates via `sys.exit(c)`. -/
def exit (ds : Option DedicatedServer) (statusThread : Bool)
    (graceful : Bool) (reason : Option String) : List Action × Option Nat :=
  if graceful then
    let pre := match reason with
      | some r => [Action.log .info ("Quitting gracefully... (Reason: " ++ r ++ ")")]
      | none => [Action.log .info "Quitting gracefully..."]
    match ds with
    | some s =>
        if s.status = ServerStatus.RUNNING ∨ s.status = ServerStatus.STARTING then
          if !s.rcon_connected then
            (pre ++ [Action.killServer], none)
          else
            (pre ++ [.log .debug "Shutting down Dedicated Server before quitting...",
                     Action.shutdownServer], none)
        else
          (pre ++ exitZeroTail, some 0)
    | none =>
        (pre ++ exitZeroTail, some 0)
  else
    let pre := match reason with
      | some r => [Action.log .info ("Quitting... (Reason: " ++ r ++ ")")]
      | none => [Action.log .info "Quitting..."]
    (pre ++ (if ds.isSome then [Action.killServer] else [])
        ++ (if statusThread then [Action.pushStatus false "Server was forcibly closed"] else [])
        ++ [Action.sleep 100, Action.sysExit 1],
     some 1)

/-- Kind of a successfully parsed console command; the launcher only
distinguishes `HELP` from every other recognized verb. -/
inductive CommandKind
  | HELP
  | other (tag : String)
deriving DecidableEq

/-- A successfully parsed console command, as produced by
`ConsoleParser.parse_input`: its kind and its `message` field (the help
text used for `HELP` commands). -/
structure ParsedCommand where
  cmd : CommandKind
  message : String
deriving DecidableEq

/-- Outcome of `ConsoleParser.parse_input`: the `(success, result)` pair,
where on failure `result` is just an error message. -/
inductive ParseOutcome
  | ok (r : ParsedCommand)
  | err (msg : String)
deriving DecidableEq

/-- The `on_input` console callback: given the current command queue and
the parse outcome for the input line, returns the new queue contents and
the log trace. -/
def on_input (queue : List ParsedCommand) (p : ParseOutcome) :
    List ParsedCommand × List Action :=
  match p with
  | .ok r =>
      if r.cmd = CommandKind.HELP then
        (queue, [Action.log .info r.message])
      else
        (queue ++ [r], [])
  | .err m =>
      (queue, [Action.log .warning m])

/-- Results of the three network reachability probes of
`check_network_config`:

* `server_local_reachable` — `net.net_test_local(PublicIP, Port, False)`;
* `server_nonlocal_reachable` — `net.net_test_nonlocal(PublicIP, Port)`;
* `rcon_reachable` — `net.net_test_local(PublicIP, ConsolePort, True)`
  (`utils.net` is not part of the supervised core; per the specification
  this probe reports whether the RCON port is reachable from outside the
  local network, and the code negates it into `rcon_local_blocked`). -/
structure NetworkProbeResults where
  server_local_reachable : Bool
  server_nonlocal_reachable : Bool
  rcon_reachable : Bool
deriving DecidableEq

/-- The four-case diagnostic table over the game-port probe results. -/
def gamePortDiagnostics (port : Nat) : Bool → Bool → List Action
  | true, true =>
      [.log .info "Network configuration looks good"]
  | false, true =>
      [.log .warning "The Server is not accessible from the local network",
       .log .warning "This usually indicates an issue with NAT Loopback"]
  | true, false =>
      [.log .warning "The server can be reached locally, but not from outside of the local network",
       .log .warning ("Make sure the Server Port (" ++ toString port ++ ") is forwarded for UDP traffic")]
  | false, false =>
      [.log .warning "The Server is completely unreachable",
       .log .warning ("Make sure the Server Port (" ++ toString port
          ++ ") is forwarded for UDP traffic and check firewall settings")]

/-- The RCON exposure diagnostic: all good when the probe is negative,
otherwise the three SECURITY ALERT warnings plus the 5-second pause. -/
def rconDiagnostics (consolePort : Nat) (rconReachable : Bool) : List Action :=
  if !rconReachable then
    [.log .info "RCON network configuration looks good"]
  else
    [.log .warning ("SECURITY ALERT: The RCON Port (" ++ toString consolePort
        ++ ") is accessible from outside"),
     .log .warning "SECURITY ALERT: This potentially allows access to the Remote Console from outside your network",
     .log .warning "SECURITY ALERT: Disable this ASAP to prevent issues",
     Action.sleep 5000]

/-- `check_network_config`: header log, the game-port diagnostic table,
then the RCON exposure diagnostic. -/
def check_network_config (port consolePort : Nat) (r : NetworkProbeResults) :
    List Action :=
  Action.log .info "Checking Network Configuration..." ::
    (gamePortDiagnostics port r.server_local_reachable r.server_nonlocal_reachable
      ++ rconDiagnostics consolePort r.rcon_reachable)

/-- Behaviour of the wineboot subprocess launched by the WINE bootstrap:
either process creation (or anything else inside the `try` block) raises
an exception carrying `launch_error`, or the process runs for `duration`
seconds and then exits with `exitCode`. -/
structure WineRun where
  launch_error : Option String
  duration : Nat
  exitCode : Int

/-- Outcome of `wineprocess.wait(timeout=...)` inside the `try` block. -/
inductive SubprocessOutcome
  | completed (code : Int)
  | timedOut
  | raised (msg : String)
deriving DecidableEq

/-- Semantics of `Popen` + `wait(timeout)`: an exception beats everything,
otherwise the wait times out exactly when the process runs longer than the
timeout, else it returns the exit code. -/
def wineWait (timeout : Nat) (w : WineRun) : SubprocessOutcome :=
  match w.launch_error with
  | some e => .raised e
  | none => if timeout < w.duration then .timedOut else .completed w.exitCode

/-- The launcher WINE bootstrap method (named after the Python WINE
bootstrap): runs wineboot bounded by the configured `WineBootTimeout`,
converts a timeout or exception into `false` with a logged message, and
returns `code == 0` otherwise.  Result: the returned boolean and the log
trace. -/
def updateWinePrefix (wineBootTimeout : Nat) (w : WineRun) :
    Bool × List Action :=
  let setup := [Action.log .debug "Ensuring WINE prefix is setup..."]
  match wineWait wineBootTimeout w with
  | .timedOut =>
      (false, setup ++ [Action.log .debug ("Wine process took longer than "
          ++ toString wineBootTimeout ++ " seconds, aborting")])
  | .raised e =>
      (false, setup ++ [Action.log .error ("Error occurred during updating of wine prefix: " ++ e)])
  | .completed c =>
      (decide (c = 0), setup)

/-- Environment of one `start_server` call: the update-check inputs, the
relevant configuration flags, the outcomes of the external checks and the
outcome of `self.dedicatedserver.start()` (`Except.error` models a raised
exception, `Except.ok` its boolean return value). -/
structure StartEnv where
  update : UpdateCheckInput
  autoUpdateServer : Bool
  playfab_healthy : Bool
  wineBootTimeout : Nat
  wine : WineRun
  ports_free : Bool
  checkNetwork : Bool
  port : Nat
  consolePort : Nat
  net : NetworkProbeResults
  ds : DedicatedServer
  dsStart : Except String Bool
  sendStatus : Bool

/-- The launcher method `start_server`: update check, Playfab health
gate, WINE bootstrap, port availability, optional network check, input
thread start, dedicated-server launch, then status push / status thread /
server loop.  Each failed gate calls `self.exit(reason=...)`, i.e. the
non-graceful exit (the dedicated-server object and the status thread both
exist by this point).  Result: action trace and process exit code (`none`
when the method runs to the server loop or returns early). -/
def start_server (e : StartEnv) : List Action × Option Nat :=
  let t1 := check_server_update e.update e.autoUpdateServer false
  if !e.playfab_healthy then
    let x := exit (some e.ds) true false (some "Playfab API unavailable")
    (t1 ++ [Action.log .error "Playfab API is unavailable. Are you connected to the internet?"]
        ++ x.1, x.2)
  else
    let wres := updateWinePrefix e.wineBootTimeout e.wine
    if !wres.1 then
      let x := exit (some e.ds) true false (some "Error while updating WINE prefix")
      (t1 ++ wres.2 ++ x.1, x.2)
    else if !e.ports_free then
      let x := exit (some e.ds) true false (some "Port not available")
      (t1 ++ wres.2 ++ x.1, x.2)
    else
      let nt := if e.checkNetwork then check_network_config e.port e.consolePort e.net else []
      let base := t1 ++ wres.2 ++ nt
          ++ [Action.log .debug "Starting input thread...",
              Action.startInputThread, Action.launchServer]
      match e.dsStart with
      | .error ex =>
          let x := exit (some e.ds) true false (some "Error while starting Dedicated Server")
          (base ++ [Action.log .error ("There as an error while starting the Dedicated Server: " ++ ex)]
              ++ x.1, x.2)
      | .ok false => (base, none)
      | .ok true =>
          (base ++ [Action.log .info "Enter \x27help\x27 to get help about command usage",
                    Action.pushStatus true "Server is running"]
              ++ (if e.sendStatus then
                    [Action.log .info "Sending of status updates is enabled",
                     Action.startStatusThread]
                  else [])
              ++ [Action.log .debug "Starting server loop...", Action.serverLoop],
           none)

/-! ### Helper lemmas (shared between claims) -/

theorem updateDecision_countP_isLaunch (i : UpdateCheckInput) :
    (updateDecision i).logs.countP isLaunch = 0 := by
  rcases i with ⟨old, exe, rem⟩
  cases old with
  | none => simp [updateDecision, isLaunch]
  | some o =>
    cases exe with
    | false => simp [updateDecision, isLaunch]
    | true =>
      rcases rem with e | v
      · simp [updateDecision, isLaunch]
      · by_cases h : versionLt o v <;> simp [updateDecision, h, isLaunch]

theorem check_server_update_countP_isLaunch (i : UpdateCheckInput)
    (a f : Bool) :
    (check_server_update i a f).countP isLaunch = 0 := by
  unfold check_server_update
  simp only [List.countP_append, updateDecision_countP_isLaunch]
  cases a <;> cases f <;>
    by_cases h : (updateDecision i).do_update <;>
      by_cases hi : (updateDecision i).installed <;>
        simp [h, hi, isLaunch]

theorem updateWinePrefix_countP_isLaunch (t : Nat) (w : WineRun) :
    (updateWinePrefix t w).2.countP isLaunch = 0 := by
  unfold updateWinePrefix
  rcases hw : wineWait t w with c | _ | e <;> simp [isLaunch]

theorem exit_forced_code (ds : Option DedicatedServer) (st : Bool)
    (r : Option String) : (exit ds st false r).2 = some 1 := by
  simp [exit]

theorem exit_forced_countP_isLaunch (ds : Option DedicatedServer)
    (st : Bool) (r : Option String) :
    (exit ds st false r).1.countP isLaunch = 0 := by
  rcases r with _ | r <;> cases ds <;> cases st <;> simp [exit, isLaunch]

theorem exit_forced_reason_log (ds : Option DedicatedServer) (st : Bool)
    (r : String) :
    Action.log .info ("Quitting... (Reason: " ++ r ++ ")") ∈
      (exit ds st false (some r)).1 := by
  cases ds <;> cases st <;> simp [exit]

/-! ### Claims -/

/-- C1: the update-needed decision of `check_server_update` is true iff no
installed build version can be read or the server executable is missing,
or the remote version fetch/parse fails (fail-open), or the fetched remote
version is strictly greater than the installed one under dotted-version
ordering; in particular installed 1.3.0 with remote 1.3.0 yields false. -/
theorem check_server_update_needed_spec :
    (∀ i : UpdateCheckInput,
      check_server_update_needed i = true ↔
        i.oldversion = none ∨ i.ds_executable = false ∨
        (∃ e, i.remote = Except.error e) ∨
        (∃ old newv, i.oldversion = some old ∧ i.remote = Except.ok newv ∧
          versionLt old newv = true)) ∧
    check_server_update_needed
      ⟨some [1, 3, 0], true, Except.ok [1, 3, 0]⟩ = false := by
  constructor
  · intro i
    rcases i with ⟨old, exe, rem⟩
    cases old with
    | none => simp [check_server_update_needed, updateDecision]
    | some o =>
      cases exe with
      | false => simp [check_server_update_needed, updateDecision]
      | true =>
        rcases rem with e | v
        · simp [check_server_update_needed, updateDecision]
        · cases h : versionLt o v <;>
            simp [check_server_update_needed, updateDecision, h]
  · decide

/-- C9: `update_server` is invoked iff the update-needed decision holds and
additionally `AutoUpdateServer` or `force_update` is set; when an update is
required but both are false, nothing is installed or updated and the
decision branch contributes only the informational log line. -/
theorem check_server_update_invokes_update_iff :
    ∀ (i : UpdateCheckInput) (auto force : Bool),
      (Action.updateServerApp ∈ check_server_update i auto force ↔
        check_server_update_needed i = true ∧ (auto = true ∨ force = true)) ∧
      (check_server_update_needed i = true → auto = false → force = false →
        check_server_update i auto force =
          (updateDecision i).logs ++
            [Action.log .info "Not installing/updating automatically"]) := by
  intro i auto force
  have hlogs : Action.updateServerApp ∉ (updateDecision i).logs := by
    rcases i with ⟨old, exe, rem⟩
    cases old with
    | none => simp [updateDecision]
    | some o =>
      cases exe with
      | false => simp [updateDecision]
      | true =>
        rcases rem with e | v
        · simp [updateDecision]
        · by_cases h : versionLt o v <;> simp [updateDecision, h]
  constructor
  · unfold check_server_update check_server_update_needed
    cases auto <;> cases force <;>
      by_cases h : (updateDecision i).do_update <;>
        by_cases hi : (updateDecision i).installed <;>
          simp [h, hi, hlogs]
  · intro h ha hf
    subst ha; subst hf
    unfold check_server_update
    rw [check_server_update_needed] at h
    simp [h]

/-- Witness for C9 at a concrete input: server not installed, auto-update
off, no forced update — only the informational log line is emitted. -/
theorem check_server_update_invokes_update_iff_witness :
    check_server_update ⟨none, false, Except.error "down"⟩ false false =
      (updateDecision ⟨none, false, Except.error "down"⟩).logs ++
        [Action.log .info "Not installing/updating automatically"] :=
  (check_server_update_invokes_update_iff
      ⟨none, false, Except.error "down"⟩ false false).2 (by decide) rfl rfl

/-- C2: graceful exit.  If the dedicated server exists with status STARTING
or RUNNING: without a connected RCON session the child is hard-killed
(exactly one kill, no shutdown request) and the method returns without
terminating the application; with a connected RCON session a clean shutdown
request is issued (no kill) and the method returns.  In every other case
the application terminates with exit code 0 without touching the child. -/
theorem exit_graceful_spec :
    ∀ (st : Bool) (reason : Option String),
      (∀ s : DedicatedServer,
        ((s.status = ServerStatus.RUNNING ∨ s.status = ServerStatus.STARTING) →
          ((s.rcon_connected = false →
              (exit (some s) st true reason).1.countP isKill = 1 ∧
              (exit (some s) st true reason).1.countP isShutdown = 0 ∧
              (exit (some s) st true reason).2 = none) ∧
           (s.rcon_connected = true →
              (exit (some s) st true reason).1.countP isShutdown = 1 ∧
              (exit (some s) st true reason).1.countP isKill = 0 ∧
              (exit (some s) st true reason).2 = none))) ∧
        (s.status ≠ ServerStatus.RUNNING → s.status ≠ ServerStatus.STARTING →
          (exit (some s) st true reason).2 = some 0 ∧
          (exit (some s) st true reason).1.countP isKill = 0 ∧
          (exit (some s) st true reason).1.countP isShutdown = 0)) ∧
      ((exit none st true reason).2 = some 0 ∧
       (exit none st true reason).1.countP isKill = 0 ∧
       (exit none st true reason).1.countP isShutdown = 0) := by
  intro st reason
  refine ⟨fun s => ⟨fun hs => ⟨fun hr => ?_, fun hr => ?_⟩, fun h1 h2 => ?_⟩, ?_⟩
  · rcases s with ⟨status, rcon⟩
    cases status <;> rcases reason with _ | r <;>
      simp_all [exit, isKill, isShutdown]
  · rcases s with ⟨status, rcon⟩
    cases status <;> rcases reason with _ | r <;>
      simp_all [exit, isKill, isShutdown]
  · rcases s with ⟨status, rcon⟩
    cases status <;> rcases reason with _ | r <;>
      simp_all [exit, exitZeroTail, isKill, isShutdown]
  · rcases reason with _ | r <;>
      simp [exit, exitZeroTail, isKill, isShutdown]

/-- Witness for C2 at concrete inputs: a RUNNING server without RCON is
hard-killed and the method returns; a STOPPED server exits with code 0. -/
theorem exit_graceful_spec_witness :
    ((exit (some ⟨ServerStatus.RUNNING, false⟩) true true none).1.countP isKill = 1 ∧
     (exit (some ⟨ServerStatus.RUNNING, false⟩) true true none).1.countP isShutdown = 0 ∧
     (exit (some ⟨ServerStatus.RUNNING, false⟩) true true none).2 = none) ∧
    ((exit (some ⟨ServerStatus.STOPPED, false⟩) true true none).2 = some 0 ∧
     (exit (some ⟨ServerStatus.STOPPED, false⟩) true true none).1.countP isKill = 0 ∧
     (exit (some ⟨ServerStatus.STOPPED, false⟩) true true none).1.countP isShutdown = 0) :=
  ⟨(((exit_graceful_spec true none).1 ⟨ServerStatus.RUNNING, false⟩).1
      (Or.inl rfl)).1 rfl,
   ((exit_graceful_spec true none).1 ⟨ServerStatus.STOPPED, false⟩).2
      (by decide) (by decide)⟩

/-- C5: non-graceful exit.  The child is killed exactly when a
dedicated-server handle exists (regardless of its status), the final
"Server was forcibly closed" status report is pushed exactly once when the
status thread exists (never retried), only a short 100 ms grace delay is
waited, and the application then terminates with exit code 1 in all
cases. -/
theorem exit_forced_spec :
    ∀ (ds : Option DedicatedServer) (st : Bool) (reason : Option String),
      (exit ds st false reason).2 = some 1 ∧
      ((exit ds st false reason).1.countP isKill =
        if ds.isSome then 1 else 0) ∧
      ((exit ds st false reason).1.countP isForcedClosePush =
        if st then 1 else 0) ∧
      Action.sleep 100 ∈ (exit ds st false reason).1 := by
  intro ds st reason
  rcases reason with _ | r <;> cases ds <;> cases st <;>
    simp [exit, isKill, isForcedClosePush]

/-- C10: exit is safe before the dedicated-server handle or the status
thread exists (both fields are initialized to None at the top of
`__init__`): with both absent, neither path of exit performs any
child-process operation (kill or shutdown) or any status push, and both
paths terminate the application (code 0 when graceful, 1 otherwise). -/
theorem exit_safe_uninitialized :
    ∀ (graceful : Bool) (reason : Option String),
      (exit none false graceful reason).2 = some (cond graceful 0 1) ∧
      (exit none false graceful reason).1.countP isKill = 0 ∧
      (exit none false graceful reason).1.countP isShutdown = 0 ∧
      (exit none false graceful reason).1.countP isPush = 0 := by
  intro graceful reason
  rcases reason with _ | r <;> cases graceful <;>
    simp [exit, exitZeroTail, isKill, isShutdown, isPush]

/-- C3: console input handling.  A successfully parsed HELP command is
logged and never enqueued; a parse failure is logged as a warning and
dropped with the queue unchanged; every other successfully parsed command
is appended to the command queue (and nothing is appended otherwise). -/
theorem on_input_spec :
    ∀ (q : List ParsedCommand) (p : ParseOutcome),
      (∀ r, p = ParseOutcome.ok r → r.cmd = CommandKind.HELP →
        (on_input q p).1 = q ∧
        (on_input q p).2 = [Action.log .info r.message]) ∧
      (∀ m, p = ParseOutcome.err m →
        (on_input q p).1 = q ∧
        (on_input q p).2 = [Action.log .warning m]) ∧
      (∀ r, p = ParseOutcome.ok r → r.cmd ≠ CommandKind.HELP →
        (on_input q p).1 = q ++ [r] ∧ (on_input q p).2 = []) ∧
      ((on_input q p).1 ≠ q →
        ∃ r, p = ParseOutcome.ok r ∧ r.cmd ≠ CommandKind.HELP ∧
          (on_input q p).1 = q ++ [r]) := by
  intro q p
  refine ⟨fun r hp hr => ?_, fun m hp => ?_, fun r hp hr => ?_, fun hne => ?_⟩
  · subst hp; simp [on_input, hr]
  · subst hp; simp [on_input]
  · subst hp; simp [on_input, hr]
  · rcases p with r | m
    · by_cases hr : r.cmd = CommandKind.HELP
      · exact absurd (by simp [on_input, hr]) hne
      · exact ⟨r, rfl, hr, by simp [on_input, hr]⟩
    · exact absurd (by simp [on_input]) hne

/-- Witness for C3 at concrete inputs: a HELP command is only logged, a
parse failure is dropped with a warning, and a non-HELP command is
enqueued. -/
theorem on_input_spec_witness :
    ((on_input [] (ParseOutcome.ok ⟨CommandKind.HELP, "usage"⟩)).1 = [] ∧
     (on_input [] (ParseOutcome.ok ⟨CommandKind.HELP, "usage"⟩)).2 =
       [Action.log .info "usage"]) ∧
    ((on_input [] (ParseOutcome.err "bad command")).1 = [] ∧
     (on_input [] (ParseOutcome.err "bad command")).2 =
       [Action.log .warning "bad command"]) ∧
    ((on_input [] (ParseOutcome.ok ⟨CommandKind.other "shutdown", "m"⟩)).1 =
       [⟨CommandKind.other "shutdown", "m"⟩] ∧
     (on_input [] (ParseOutcome.ok ⟨CommandKind.other "shutdown", "m"⟩)).2 = []) :=
  ⟨(on_input_spec [] (ParseOutcome.ok ⟨CommandKind.HELP, "usage"⟩)).1
      ⟨CommandKind.HELP, "usage"⟩ rfl rfl,
   (on_input_spec [] (ParseOutcome.err "bad command")).2.1 "bad command" rfl,
   (on_input_spec [] (ParseOutcome.ok ⟨CommandKind.other "shutdown", "m"⟩)).2.2.1
      ⟨CommandKind.other "shutdown", "m"⟩ rfl (by decide)⟩

/-- C4: during the network-configuration check, the trace decomposes into
the game-port diagnostic (a function of the two game-port outcomes only)
followed by the RCON diagnostic (a function of the RCON probe only, hence
independent of the four game-port outcomes); the RCON diagnostic is the
three SECURITY ALERT warnings plus the mandatory 5-second pause exactly
when the RCON port is reachable from outside, and only then does the pause
occur anywhere in the trace; the check never terminates the application,
and a passing start sequence reaches the server loop for every combination
of probe results. -/
theorem check_network_rcon_security_spec :
    ∀ (port consolePort : Nat) (r : NetworkProbeResults),
      check_network_config port consolePort r =
        Action.log .info "Checking Network Configuration..." ::
          (gamePortDiagnostics port r.server_local_reachable r.server_nonlocal_reachable
            ++ rconDiagnostics consolePort r.rcon_reachable) ∧
      rconDiagnostics consolePort true =
        [.log .warning ("SECURITY ALERT: The RCON Port (" ++ toString consolePort
            ++ ") is accessible from outside"),
         .log .warning "SECURITY ALERT: This potentially allows access to the Remote Console from outside your network",
         .log .warning "SECURITY ALERT: Disable this ASAP to prevent issues",
         Action.sleep 5000] ∧
      rconDiagnostics consolePort false =
        [.log .info "RCON network configuration looks good"] ∧
      (Action.sleep 5000 ∈ check_network_config port consolePort r ↔
        r.rcon_reachable = true) ∧
      (check_network_config port consolePort r).countP isSysExit = 0 ∧
      (∀ e : StartEnv, e.playfab_healthy = true →
        (updateWinePrefix e.wineBootTimeout e.wine).1 = true →
        e.ports_free = true → e.dsStart = Except.ok true →
        (start_server e).2 = none) := by
  intro port consolePort r
  refine ⟨rfl, by simp [rconDiagnostics], rfl, ?_, ?_, ?_⟩
  · rcases r with ⟨l, n, rc⟩
    cases l <;> cases n <;> cases rc <;>
      simp [check_network_config, gamePortDiagnostics, rconDiagnostics]
  · rcases r with ⟨l, n, rc⟩
    cases l <;> cases n <;> cases rc <;>
      simp [check_network_config, gamePortDiagnostics, rconDiagnostics, isSysExit]
  · intro e hp hw hpf hds
    simp [start_server, hp, hw, hpf, hds]

/-- Witness for C4 at concrete inputs: with all gates passing, the start
sequence reaches the server loop (no process termination). -/
theorem check_network_rcon_security_spec_witness :
    (start_server
      { update := ⟨some [1, 0], true, Except.ok [1, 0]⟩
        autoUpdateServer := false
        playfab_healthy := true
        wineBootTimeout := 30
        wine := ⟨none, 1, 0⟩
        ports_free := true
        checkNetwork := true
        port := 7777
        consolePort := 1234
        net := ⟨true, true, false⟩
        ds := ⟨ServerStatus.STOPPED, false⟩
        dsStart := Except.ok true
        sendStatus := false }).2 = none :=
  (check_network_rcon_security_spec 7777 1234 ⟨true, true, false⟩).2.2.2.2.2
    _ rfl (by decide) rfl rfl

/-- C8: the game-port diagnostic emits exactly the fixed four-case table —
(true, true) logs that the configuration looks good, (false, true) warns
about NAT loopback, (true, false) warns about port forwarding,
(false, false) warns about port forwarding and firewall — and no
combination terminates the application. -/
theorem game_port_diagnostics_table :
    ∀ (port consolePort : Nat) (r : NetworkProbeResults),
      gamePortDiagnostics port true true =
        [.log .info "Network configuration looks good"] ∧
      gamePortDiagnostics port false true =
        [.log .warning "The Server is not accessible from the local network",
         .log .warning "This usually indicates an issue with NAT Loopback"] ∧
      gamePortDiagnostics port true false =
        [.log .warning "The server can be reached locally, but not from outside of the local network",
         .log .warning ("Make sure the Server Port (" ++ toString port
            ++ ") is forwarded for UDP traffic")] ∧
      gamePortDiagnostics port false false =
        [.log .warning "The Server is completely unreachable",
         .log .warning ("Make sure the Server Port (" ++ toString port
            ++ ") is forwarded for UDP traffic and check firewall settings")] ∧
      check_network_config port consolePort r =
        Action.log .info "Checking Network Configuration..." ::
          (gamePortDiagnostics port r.server_local_reachable r.server_nonlocal_reachable
            ++ rconDiagnostics consolePort r.rcon_reachable) ∧
      (check_network_config port consolePort r).countP isSysExit = 0 := by
  intro port consolePort r
  refine ⟨rfl, rfl, rfl, rfl, rfl, ?_⟩
  rcases r with ⟨l, n, rc⟩
  cases l <;> cases n <;> cases rc <;>
    simp [check_network_config, gamePortDiagnostics, rconDiagnostics, isSysExit]

/-- C7: the WINE bootstrap returns true iff the wineboot subprocess is
created without an exception, completes within the configured
`WineBootTimeout` seconds and exits with code 0; an exception is converted
into a false return with a logged error, a timeout expiry into a false
return with a logged message, and the function never propagates an
exception (it is total and always returns a boolean). -/
theorem updateWinePrefix_spec :
    ∀ (t : Nat) (w : WineRun),
      ((updateWinePrefix t w).1 = true ↔
        w.launch_error = none ∧ w.duration ≤ t ∧ w.exitCode = 0) ∧
      (∀ e, w.launch_error = some e →
        (updateWinePrefix t w).1 = false ∧
        Action.log .error ("Error occurred during updating of wine prefix: " ++ e) ∈
          (updateWinePrefix t w).2) ∧
      (w.launch_error = none → t < w.duration →
        (updateWinePrefix t w).1 = false ∧
        Action.log .debug ("Wine process took longer than " ++ toString t
            ++ " seconds, aborting") ∈ (updateWinePrefix t w).2) := by
  intro t w
  rcases w with ⟨le, dur, code⟩
  refine ⟨?_, fun e he => ?_, fun hn hd => ?_⟩
  · rcases le with _ | e
    · by_cases h : t < dur
      · simp only [updateWinePrefix, wineWait, if_pos h]
        simp
        omega
      · simp only [updateWinePrefix, wineWait, if_neg h]
        simp
        intro _
        exact Nat.le_of_not_lt h
    · simp [updateWinePrefix, wineWait]
  · simp only at he
    subst he
    simp [updateWinePrefix, wineWait]
  · simp only at hn
    subst hn
    simp [updateWinePrefix, wineWait, hd]

/-- Witness for C7 at concrete inputs: a run exceeding the timeout yields
false with the timeout message logged, and an exception yields false. -/
theorem updateWinePrefix_spec_witness :
    ((updateWinePrefix 1 ⟨none, 5, 0⟩).1 = false ∧
     Action.log .debug ("Wine process took longer than " ++ toString 1
        ++ " seconds, aborting") ∈ (updateWinePrefix 1 ⟨none, 5, 0⟩).2) ∧
    ((updateWinePrefix 30 ⟨some "boom", 1, 0⟩).1 = false ∧
     Action.log .error ("Error occurred during updating of wine prefix: " ++ "boom") ∈
       (updateWinePrefix 30 ⟨some "boom", 1, 0⟩).2) :=
  ⟨(updateWinePrefix_spec 1 ⟨none, 5, 0⟩).2.2 rfl (by decide),
   (updateWinePrefix_spec 30 ⟨some "boom", 1, 0⟩).2.1 "boom" rfl⟩

/-- C6: if the Playfab health endpoint is unreachable, or the WINE
bootstrap fails, or the ports are not free, then `start_server` terminates
the whole application with exit code 1, logs the quitting reason, and the
dedicated-server child process is never launched. -/
theorem start_server_fatal_spec :
    ∀ e : StartEnv,
      (e.playfab_healthy = false ∨
       (updateWinePrefix e.wineBootTimeout e.wine).1 = false ∨
       e.ports_free = false) →
      (start_server e).2 = some 1 ∧
      (start_server e).1.countP isLaunch = 0 ∧
      ∃ r, Action.log .info ("Quitting... (Reason: " ++ r ++ ")") ∈
        (start_server e).1 := by
  intro e h
  cases hp : e.playfab_healthy with
  | false =>
    have htr : (start_server e).1 =
        check_server_update e.update e.autoUpdateServer false
          ++ [Action.log .error "Playfab API is unavailable. Are you connected to the internet?"]
          ++ (exit (some e.ds) true false (some "Playfab API unavailable")).1 := by
      simp [start_server, hp]
    have hc : (start_server e).2 =
        (exit (some e.ds) true false (some "Playfab API unavailable")).2 := by
      simp [start_server, hp]
    refine ⟨by rw [hc, exit_forced_code], ?_, "Playfab API unavailable", ?_⟩
    · rw [htr]
      simp [List.countP_append, check_server_update_countP_isLaunch,
        exit_forced_countP_isLaunch, isLaunch]
    · rw [htr]
      exact List.mem_append.mpr (Or.inr (exit_forced_reason_log _ _ _))
  | true =>
    cases hw : (updateWinePrefix e.wineBootTimeout e.wine).1 with
    | false =>
      have htr : (start_server e).1 =
          check_server_update e.update e.autoUpdateServer false
            ++ (updateWinePrefix e.wineBootTimeout e.wine).2
            ++ (exit (some e.ds) true false (some "Error while updating WINE prefix")).1 := by
        simp [start_server, hp, hw]
      have hc : (start_server e).2 =
          (exit (some e.ds) true false (some "Error while updating WINE prefix")).2 := by
        simp [start_server, hp, hw]
      refine ⟨by rw [hc, exit_forced_code], ?_, "Error while updating WINE prefix", ?_⟩
      · rw [htr]
        simp [List.countP_append, check_server_update_countP_isLaunch,
          updateWinePrefix_countP_isLaunch, exit_forced_countP_isLaunch]
      · rw [htr]
        exact List.mem_append.mpr (Or.inr (exit_forced_reason_log _ _ _))
    | true =>
      cases hpf : e.ports_free with
      | false =>
        have htr : (start_server e).1 =
            check_server_update e.update e.autoUpdateServer false
              ++ (updateWinePrefix e.wineBootTimeout e.wine).2
              ++ (exit (some e.ds) true false (some "Port not available")).1 := by
          simp [start_server, hp, hw, hpf]
        have hc : (start_server e).2 =
            (exit (some e.ds) true false (some "Port not available")).2 := by
          simp [start_server, hp, hw, hpf]
        refine ⟨by rw [hc, exit_forced_code], ?_, "Port not available", ?_⟩
        · rw [htr]
          simp [List.countP_append, check_server_update_countP_isLaunch,
            updateWinePrefix_countP_isLaunch, exit_forced_countP_isLaunch]
        · rw [htr]
          exact List.mem_append.mpr (Or.inr (exit_forced_reason_log _ _ _))
      | true =>
        rcases h with h | h | h
        · rw [hp] at h; cases h
        · rw [hw] at h; cases h
        · rw [hpf] at h; cases h

/-- Witness for C6 at a concrete input: with the Playfab endpoint down,
the start sequence aborts with code 1 without launching the child. -/
theorem start_server_fatal_spec_witness :
    (start_server
      { update := ⟨some [1, 0], true, Except.ok [1, 0]⟩
        autoUpdateServer := false
        playfab_healthy := false
        wineBootTimeout := 30
        wine := ⟨none, 1, 0⟩
        ports_free := true
        checkNetwork := false
        port := 7777
        consolePort := 1234
        net := ⟨true, true, false⟩
        ds := ⟨ServerStatus.STOPPED, false⟩
        dsStart := Except.ok true
        sendStatus := false }).2 = some 1 ∧
    (start_server
      { update := ⟨some [1, 0], true, Except.ok [1, 0]⟩
        autoUpdateServer := false
        playfab_healthy := false
        wineBootTimeout := 30
        wine := ⟨none, 1, 0⟩
        ports_free := true
        checkNetwork := false
        port := 7777
        consolePort := 1234
        net := ⟨true, true, false⟩
        ds := ⟨ServerStatus.STOPPED, false⟩
        dsStart := Except.ok true
        sendStatus := false }).1.countP isLaunch = 0 ∧
    ∃ r, Action.log .info ("Quitting... (Reason: " ++ r ++ ")") ∈
      (start_server
        { update := ⟨some [1, 0], true, Except.ok [1, 0]⟩
          autoUpdateServer := false
          playfab_healthy := false
          wineBootTimeout := 30
          wine := ⟨none, 1, 0⟩
          ports_free := true
          checkNetwork := false
          port := 7777
          consolePort := 1234
          net := ⟨true, true, false⟩
          ds := ⟨ServerStatus.STOPPED, false⟩
          dsStart := Except.ok true
          sendStatus := false }).1 :=
  start_server_fatal_spec _ (Or.inl rfl)

end AstroTux
